import Mathlib

/-!
Shallow embedding of the scaleviewer repository (a PyQt data-browsing
application).  Python dictionaries holding JSON-decoded data are modelled by
an inductive `JValue`; Python floats are modelled by exact rationals `ℚ`
(numeric literals such as `0.3` denote the rational they name).  Each
definition below is translated from the named function of the source tree.
-/

/-- A JSON-decoded Python value: numbers (int/float merged into `ℚ`),
strings, booleans, `None`, lists, and string-keyed dicts (as assoc lists,
first binding wins on lookup, mirroring unique-key dicts). -/
inductive JValue where
  | jnum  (q : ℚ)
  | jstr  (s : String)
  | jbool (b : Bool)
  | jnull
  | jarr  (elems : List JValue)
  | jobj  (entries : List (String × JValue))

/-- A Python dict with string keys, as produced by `json.load` for objects. -/
abbrev PyDict : Type := List (String × JValue)

/-- Python `d.get(k)` / `d[k]` presence: first binding for the key. -/
def jGet (d : PyDict) (k : String) : Option JValue :=
  d.lookup k

/-- Python `d.get(k, default)`. -/
def jGetD (d : PyDict) (k : String) (v : JValue) : JValue :=
  (jGet d k).getD v

/-- Structural equality of values, modelling Python `==` on JSON-decoded
data.  (Python's numeric cross-type equalities such as `True == 1` are not
reproduced; no theorem below depends on that corner.) -/
def JValue.beq : JValue → JValue → Bool
  | .jnum a,  .jnum b  => a == b
  | .jstr a,  .jstr b  => a == b
  | .jbool a, .jbool b => a == b
  | .jnull,   .jnull   => true
  | .jarr [], .jarr [] => true
  | .jarr (a :: as), .jarr (b :: bs) => a.beq b && (JValue.jarr as).beq (JValue.jarr bs)
  | .jobj [], .jobj [] => true
  | .jobj ((ka, va) :: as), .jobj ((kb, vb) :: bs) =>
      ka == kb && va.beq vb && (JValue.jobj as).beq (JValue.jobj bs)
  | _, _ => false

/-- Python `==` lifted to optional values (`None == None` is `True`). -/
def beqO : Option JValue → Option JValue → Bool
  | none, none => true
  | some a, some b => a.beq b
  | _, _ => false

/-- ASCII lowering of one character, modelling `str.lower()` on the ASCII
field names the repository uses. -/
def lowerChar (c : Char) : Char :=
  if 'A' ≤ c ∧ c ≤ 'Z' then Char.ofNat (c.toNat + 32) else c

/-- `s.lower()` for the ASCII strings used as field names and patterns. -/
def lowerStr (s : String) : String := String.mk (s.data.map lowerChar)

/-- Substring occurrence over character lists. -/
def subList (needle : List Char) : List Char → Bool
  | [] => needle.isEmpty
  | c :: t => needle.isPrefixOf (c :: t) || subList needle t

/-- Python `needle in hay` for strings. -/
def strContains (hay needle : String) : Bool := subList needle.data hay.data

/-- Numeric value of a digit run. -/
def digitsVal (ds : List Char) : ℕ :=
  ds.foldl (fun acc c => 10 * acc + (c.toNat - 48)) 0

/-- Python `float(s)` on a sign-free string that only contains digits and
dots: accepts `d+`, `d+.d*`, `.d+`, rejects everything else. -/
def parseUnsignedPyFloat (cs : List Char) : Option ℚ :=
  let ip := cs.takeWhile Char.isDigit
  let rest := cs.dropWhile Char.isDigit
  match rest with
  | [] => if ip.isEmpty then none else some ((digitsVal ip : ℚ))
  | '.' :: fp =>
      if fp.all Char.isDigit && !(ip.isEmpty && fp.isEmpty) then
        some ((digitsVal ip : ℚ) + (digitsVal fp : ℚ) / ((10 : ℚ) ^ fp.length))
      else none
  | _ => none

/-- Python `float(s)` restricted to strings made of digits, `.` and `-`
(the only characters the callers keep); an inner `-` fails as in Python. -/
def parsePyFloat (cs : List Char) : Option ℚ :=
  match cs with
  | '-' :: rest => (parseUnsignedPyFloat rest).map (fun q => -q)
  | _ => parseUnsignedPyFloat cs

/-- The character filter `c.isdigit() or c == '.' or c == '-'` shared by
every `extract_numeric_value` in the repository. -/
def numericChars (s : String) : List Char :=
  s.data.filter (fun c => c.isDigit || c == '.' || c == '-')

/-- `extract_numeric_value` as written identically in crystal_detection.py,
heatmap_view.py and netgraph_view.py: numbers pass through (Python bools are
ints), strings are filtered to digits/dot/minus and parsed, everything else
is `None`. -/
def extract_numeric_value : JValue → Option ℚ
  | .jnum q => some q
  | .jbool b => some (if b then 1 else 0)
  | .jstr s =>
      let cs := numericChars s
      if cs.isEmpty then none else parsePyFloat cs
  | _ => none

/-- `extract_numeric_value(d.get(f))`: a missing key gives `None`. -/
def extractO : Option JValue → Option ℚ
  | none => none
  | some v => extract_numeric_value v

/-- Python `str()` of a value as used when values are embedded in text.
Integral numbers render like Python ints; non-integral rationals render as
`num/den`, an approximation of the float repr; containers render as a stub.
No theorem depends on this rendering. -/
def pyStr : JValue → String
  | .jnum q => if q.den = 1 then toString q.num else toString q.num ++ "/" ++ toString q.den
  | .jstr s => s
  | .jbool b => if b then "True" else "False"
  | .jnull => "None"
  | .jarr _ => "[...]"
  | .jobj _ => "[...]"

/-- `obj.get("data", {})` narrowed to a dict; a non-dict `data` value (on
which the Python code would raise while iterating) is modelled as empty. -/
def pyDataOf (obj : PyDict) : PyDict :=
  match jGet obj "data" with
  | some (.jobj d) => d
  | _ => []

/-- `obj1.get("scale") == obj2.get("scale")` as in both similarity views. -/
def sameScale (obj1 obj2 : PyDict) : Bool :=
  beqO (jGet obj1 "scale") (jGet obj2 "scale")

/-- One entry of `matching_props`: either an exact shared field name or a
semantically paired `(field1, field2)` tuple. -/
inductive MatchProp where
  | exactF (f : String)
  | pairF (f1 f2 : String)

/-- The six substrings used by both views to pair semantically similar
field names. -/
def semanticTerms : List String :=
  ["period", "frequency", "mass", "energy", "time", "cycle"]

/-- First pass of `calculate_property_similarity`: property fields present
in both data dicts. -/
def exactMatches (property_fields : List String) (data1 data2 : PyDict) : List MatchProp :=
  (property_fields.filter (fun f => (jGet data1 f).isSome && (jGet data2 f).isSome)).map
    MatchProp.exactF

/-- Second pass, inner loop: the first `field2` of `data2` sharing a
semantic term with `field1` (the Python `break`). -/
def semanticPairFor (f1 : String) (data2 : PyDict) : Option MatchProp :=
  (data2.find? (fun p =>
      semanticTerms.any (fun t => strContains (lowerStr f1) t && strContains (lowerStr p.1) t))).map
    (fun p => MatchProp.pairF f1 p.1)

/-- Second pass of `calculate_property_similarity`: one semantic pair per
`data1` field that has one. -/
def semanticMatches (data1 data2 : PyDict) : List MatchProp :=
  data1.filterMap (fun p => semanticPairFor p.1 data2)

/-- Third pass, inner loop: first `field2` agreeing with `field1` on the
first five characters (when `field1` is longer than four) or equal to it. -/
def stemPairFor (f1 : String) (data2 : PyDict) : Option MatchProp :=
  (data2.find? (fun p =>
      (f1.data.take 5 == p.1.data.take 5 && decide (4 < f1.data.length)) || f1 == p.1)).map
    (fun p => MatchProp.pairF f1 p.1)

/-- Third pass of `calculate_property_similarity`. -/
def stemMatches (data1 data2 : PyDict) : List MatchProp :=
  data1.filterMap (fun p => stemPairFor p.1 data2)

/-- `matching_props` of `calculate_property_similarity` (identical in
heatmap_view.py and netgraph_view.py): exact matches, else semantic pairs,
else stem pairs. -/
def find_matching_props (data1 data2 : PyDict) (property_fields : List String) : List MatchProp :=
  let ms := exactMatches property_fields data1 data2
  if ms.isEmpty then
    let ss := semanticMatches data1 data2
    if ss.isEmpty then stemMatches data1 data2 else ss
  else ms

/-- One `similarity +=` step: ratio `min/max` of the two extracted numeric
values, taken only when both extract and the max is positive, times the
weight (0.5 exact, 0.3 paired). -/
def matchContribution (data1 data2 : PyDict) (w : ℚ) (f1 f2 : String) : ℚ :=
  match extractO (jGet data1 f1), extractO (jGet data2 f2) with
  | some v1, some v2 =>
      let mx := max v1 v2
      let mn := min v1 v2
      if 0 < mx then mn / mx * w else 0
  | _, _ => 0

/-- The accumulation loop over `matching_props`. -/
def similarity_sum (data1 data2 : PyDict) (props : List MatchProp) : ℚ :=
  props.foldl (fun acc p =>
    match p with
    | .exactF f => acc + matchContribution data1 data2 (1/2) f f
    | .pairF f1 f2 => acc + matchContribution data1 data2 (3/10) f1 f2) 0

/-- `HeatmapView.calculate_property_similarity` (src/heatmap_view.py,
lines 156-229): floor 0.3 same-scale / 0.1 cross-scale when nothing
matches, otherwise the weighted ratio sum plus a 0.3 same-scale bonus,
clamped above at 1. -/
def heatmap_calculate_property_similarity
    (obj1 obj2 : PyDict) (property_fields : List String) : ℚ :=
  let data1 := pyDataOf obj1
  let data2 := pyDataOf obj2
  let props := find_matching_props data1 data2 property_fields
  if props.isEmpty then
    (if sameScale obj1 obj2 then 3/10 else 1/10)
  else
    min 1 (similarity_sum data1 data2 props + (if sameScale obj1 obj2 then 3/10 else 0))

/-- `NetworkGraphView.calculate_property_similarity` (src/netgraph_view.py,
lines 316-389): byte-identical to the heatmap version except the 0.2
same-scale floor. -/
def netgraph_calculate_property_similarity
    (obj1 obj2 : PyDict) (property_fields : List String) : ℚ :=
  let data1 := pyDataOf obj1
  let data2 := pyDataOf obj2
  let props := find_matching_props data1 data2 property_fields
  if props.isEmpty then
    (if sameScale obj1 obj2 then 1/5 else 1/10)
  else
    min 1 (similarity_sum data1 data2 props + (if sameScale obj1 obj2 then 3/10 else 0))

/-! ## CrystalDetector (src/crystal_detection.py) -/

/-- One entry of `time_crystal_criteria["criteria"]`: the field name, the
optional condition keys (`exists` modelled as a flag that is set exactly
when the Python dict carries the key, which is always with value `True`),
and the priority. -/
structure Criterion where
  field : String
  hasExists : Bool
  values : Option (List String)
  min_value : Option ℚ
  pattern : Option String
  priority : ℕ

/-- An existence criterion. -/
def critExists (f : String) (p : ℕ) : Criterion := ⟨f, true, none, none, none, p⟩

/-- A value-membership criterion. -/
def critValues (f : String) (vs : List String) (p : ℕ) : Criterion :=
  ⟨f, false, some vs, none, none, p⟩

/-- A minimum-value criterion. -/
def critMin (f : String) (m : ℚ) (p : ℕ) : Criterion := ⟨f, false, none, some m, none, p⟩

/-- A text-pattern criterion. -/
def critPattern (f : String) (pat : String) (p : ℕ) : Criterion :=
  ⟨f, false, none, none, some pat, p⟩

/-- `time_crystal_criteria["criteria"]` from `CrystalDetector.__init__`. -/
def time_crystal_criteria : List Criterion :=
  [critExists "period" 3, critExists "orbital_period" 3, critExists "rotation_period" 3,
   critExists "oscillation_period" 3, critExists "cycle_duration" 3,
   critExists "frequency" 3, critExists "peak_frequency" 3,
   critExists "resonance_frequency" 3, critExists "pulsation_frequency" 3,
   critExists "rotation_curve_flat_velocity" 2, critExists "rotation_velocity" 2,
   critExists "angular_velocity" 2,
   critValues "spin" ["1/2", "1", "3/2"] 2,
   critExists "elementary_charge" 2, critExists "energy" 2,
   critMin "lifetime" 100 1, critExists "age" 1, critExists "coherence_time" 1,
   critPattern "symmetry" "breaking" 1, critExists "bond_angle" 1]

/-- `time_crystal_criteria["preferred_scales"]`. -/
def preferred_scales : List String :=
  ["quantum", "atomic", "molecular", "cellular", "human", "planetary", "stellar",
   "galactic", "cosmic"]

/-- `field_categories["periodicity_fields"]` of `_evaluate_candidate`. -/
def periodicity_fields : List String :=
  ["frequency", "period", "orbital_period", "rotation_period", "oscillation_period",
   "cycle_duration", "peak_frequency", "pulsation_frequency", "resonance_frequency",
   "angular_velocity", "rotation_curve_flat_velocity", "rotation_velocity"]

/-- `field_categories["quantum_fields"]`. -/
def quantum_fields : List String :=
  ["spin", "elementary_charge", "first_ionization_energy", "electron_affinity",
   "energy", "momentum", "ground_state_wavelength"]

/-- `field_categories["longevity_fields"]`. -/
def longevity_fields : List String :=
  ["lifetime", "age", "life_expectancy_global", "coherence_time", "half_life",
   "stability"]

/-- `field_categories["symmetry_fields"]`. -/
def symmetry_fields : List String :=
  ["symmetry", "bond_angle", "H–O–H bond_angle", "lattice_symmetry",
   "molecular_symmetry", "spatial_symmetry"]

/-- `field_categories["mass_fields"]`. -/
def mass_fields : List String :=
  ["mass", "stellar_mass", "rest_mass", "atomic_radius", "molecular_weight",
   "density", "critical_density"]

/-- `field_categories["amplitude_fields"]`. -/
def amplitude_fields : List String :=
  ["amplitude", "temperature_anisotropy_rms", "wave_height", "oscillation_amplitude",
   "vibration_amplitude", "luminosity"]

/-- `field_categories` in Python dict insertion order. -/
def field_categories : List (List String) :=
  [periodicity_fields, quantum_fields, longevity_fields, symmetry_fields,
   mass_fields, amplitude_fields]

/-- The same-category fallback of `_evaluate_candidate`: scan the categories
in order; for each category containing the criterion field, take the first
object field of that category; stop at the first hit.  (All category field
names are non-empty, so the Python truthiness break is `isSome`.) -/
def categoryMatch (cf : String) (objData : PyDict) : Option (String × JValue) :=
  field_categories.foldl (fun acc fields =>
    match acc with
    | some m => some m
    | none =>
        if cf ∈ fields then
          objData.find? (fun p => p.1 ∈ fields)
        else none) none

/-- The substrings of the hidden-periodicity fallback. -/
def hiddenPeriodicityTerms : List String :=
  ["period", "cycle", "frequen", "rotat", "orbit", "oscill", "veloc"]

/-- Mutable loop state of `_evaluate_candidate`: `score`,
`criteria_matched` and `periodicity_matched`.  All increments are
non-negative integers, so `ℕ` is exact. -/
structure EvalState where
  score : ℕ
  criteria_matched : ℕ
  periodicity_matched : ℕ

/-- Python truthiness of `matched_field` (a `None` or string variable). -/
def fieldTruthy : Option (String × JValue) → Bool
  | some (f, _) => !(f == "")
  | none => false

/-- `matched_value is None`: unassigned, or a JSON `null`. -/
def valueIsNone : Option (String × JValue) → Bool
  | some (_, .jnull) => true
  | some _ => false
  | none => true

/-- `match_score` of a matched criterion: the `min_value` / `values` /
`pattern` / `exists` branches in source order. -/
def matchScoreOf (c : Criterion) (v : JValue) : ℕ :=
  match c.min_value with
  | some m =>
      match extract_numeric_value v with
      | some q => if m ≤ q then 2 else 0
      | none => 0
  | none =>
  match c.values with
  | some vs =>
      if vs.any (fun valid => strContains (lowerStr (pyStr v)) (lowerStr valid)) then 2 else 0
  | none =>
  match c.pattern with
  | some pat =>
      match v with
      | .jstr s => if strContains (lowerStr s) (lowerStr pat) then 2 else 0
      | _ => 0
  | none => if c.hasExists then 1 else 0

/-- The per-field bonuses of `_evaluate_candidate`: a flat 2 for a
periodicity field, then the scale-specific `elif` chain. -/
def scaleFieldBonus (objScale : Option String) (mf : String) : ℕ :=
  (if mf ∈ periodicity_fields then 2 else 0) +
  (if objScale = some "quantum" ∧ mf ∈ quantum_fields then 2
   else if objScale = some "atomic" ∧ mf ∈ quantum_fields then 1
   else if objScale = some "molecular" ∧ strContains mf "bond" then 1
   else if objScale = some "planetary" ∧ mf ∈ periodicity_fields then 2
   else if objScale = some "stellar" ∧ mf ∈ periodicity_fields then 2
   else if objScale = some "galactic" ∧ strContains mf "rotation" then 2
   else 0)

/-- One iteration of the criteria loop of `_evaluate_candidate`. -/
def processCriterion (objData : PyDict) (objScale : Option String)
    (st : EvalState) (c : Criterion) : EvalState :=
  let matched : Option (String × JValue) :=
    match jGet objData c.field with
    | some v => some (c.field, v)
    | none => categoryMatch c.field objData
  if !(fieldTruthy matched) || valueIsNone matched then
    -- fallback: any object field whose lowered name holds a periodicity term
    if c.hasExists && decide (c.field ∈ periodicity_fields) then
      match objData.find?
              (fun p => hiddenPeriodicityTerms.any (fun t => strContains (lowerStr p.1) t)) with
      | some _ =>
          ⟨st.score + 2 * c.priority, st.criteria_matched + 1, st.periodicity_matched + 1⟩
      | none => st
    else st
  else
    match matched with
    | some (mf, mv) =>
        let ms := matchScoreOf c mv
        let st1 : EvalState :=
          if 0 < ms then
            ⟨st.score + ms * c.priority, st.criteria_matched + 1,
             st.periodicity_matched + (if mf ∈ periodicity_fields then 1 else 0)⟩
          else st
        ⟨st1.score + scaleFieldBonus objScale mf, st1.criteria_matched,
         st1.periodicity_matched⟩
    | none => st

/-- `obj.get("scale", "")` as compared against string constants: a present
string value passes through, a missing or non-string value can never equal
any of the compared names. -/
def objScaleOf (obj : PyDict) : Option String :=
  match jGet obj "scale" with
  | some (.jstr s) => some s
  | _ => none

/-- `CrystalDetector._evaluate_candidate` (src/crystal_detection.py, lines
79-258): base point for a recognized scale, the criteria loop, the
multi-criteria and periodicity bonuses, and the final clamp `min(10, score)`. -/
def evaluate_candidate (obj : PyDict) : ℕ :=
  if obj.isEmpty || (jGet obj "data").isNone then 0
  else
    let objScale := objScaleOf obj
    let base : ℕ := if (objScale.getD "") ∈ preferred_scales then 1 else 0
    let objData := pyDataOf obj
    let st := time_crystal_criteria.foldl (processCriterion objData objScale) ⟨base, 0, 0⟩
    let withCrit := st.score +
      (if 4 ≤ st.criteria_matched then 4
       else if 3 ≤ st.criteria_matched then 3
       else if 2 ≤ st.criteria_matched then 1 else 0)
    let withPer := withCrit +
      (if 2 ≤ st.periodicity_matched then 3
       else if 1 ≤ st.periodicity_matched then 1 else 0)
    min 10 withPer

/-- The scale group that `_generate_explanation` treats as true time-crystal
territory. -/
def quantumGroup : List String := ["quantum", "atomic", "molecular"]

/-- Periodicity fields listed in `_generate_explanation`. -/
def explPeriodicityFields : List String :=
  ["period", "orbital_period", "rotation_period", "cycle_duration", "frequency",
   "peak_frequency", "resonance_frequency", "pulsation_frequency",
   "rotation_curve_flat_velocity", "rotation_velocity", "angular_velocity",
   "oscillation_period"]

/-- Quantum fields listed in `_generate_explanation`. -/
def explQuantumFields : List String :=
  ["spin", "elementary_charge", "first_ionization_energy", "energy", "momentum",
   "ground_state_wavelength"]

/-- Amplitude fields listed in `_generate_explanation`. -/
def explAmplitudeFields : List String :=
  ["amplitude", "oscillation_amplitude", "luminosity", "brightness",
   "temperature_anisotropy_rms"]

/-- The periodicity-suggesting substrings of `_generate_explanation`. -/
def explTerms : List String :=
  ["period", "cycle", "frequency", "rotation", "orbit", "oscillation"]

/-- `f"{field.replace('_', ' ')}: {value}"`. -/
def fieldLine (f : String) (v : JValue) : String :=
  (f.replace "_" " ") ++ ": " ++ pyStr v

/-- The `scale_explanation` template table of `_generate_explanation`
(looked up with default `""`). -/
def scaleExplanation (scale : JValue) : String :=
  if scale.beq (.jstr "quantum") then
    "Obiekty kwantowe mogą wykazywać zachowanie kryształów czasu poprzez efekty kwantowe wielu ciał. Właściwości takie jak spin, ładunek elementarny i energia stanu podstawowego są kluczowe dla prawdziwych kryształów czasu."
  else if scale.beq (.jstr "atomic") then
    "Obiekty atomowe mogą demonstrować periodyczne oscylacje w stanie podstawowym, szczególnie przy odpowiednich wartościach energii jonizacji i promienia atomowego. To poziom na którym można obserwować kwantową krystaliczność czasową."
  else if scale.beq (.jstr "molecular") then
    "Systemy molekularne mogą wykazywać periodyczne zachowanie w określonych warunkach, zwłaszcza gdy występują specyficzne wiązania i symetrie. Mogą demonstrować własności przypominające kryształy czasu na poziomie agregacji atomów."
  else if scale.beq (.jstr "cellular") then
    "Struktury komórkowe wykazują złożone rytmy biologiczne i cykle metaboliczne, które można rozpatrywać jako makroskopową analogię kryształów czasu. Cykliczność procesów biochemicznych tworzy stabilne wzorce okresowości."
  else if scale.beq (.jstr "human") then
    "Na skali ludzkiej, periodyczność przejawia się poprzez cykle biologiczne (biorytmy), rytmy aktywności i zaangażowane procesy poznawcze. Te zjawiska, choć nie są kwantowymi kryształami czasu, reprezentują emergentne formy periodyczności na poziomie złożonych systemów biologicznych."
  else if scale.beq (.jstr "planetary") then
    "Obiekty planetarne wykazują wysoce stabilne periodyczne zachowania (orbity, rotacje, pory roku), które są makroskopowymi analogiami kryształów czasu. Stabilność tych cykli mimo zakłóceń odzwierciedla fundamentalną cechę kryształów czasu - odporność na perturbacje."
  else if scale.beq (.jstr "stellar") then
    "Gwiazdy demonstrują różnorodne formy okresowości - od pulsacji i cykli aktywności, po regularną emisję energii. Niektóre zjawiska jak pulsary wykazują niezwykle precyzyjną periodyczność, przypominającą jedną z kluczowych cech kryształów czasu - stabilnych oscylacji w czasie."
  else if scale.beq (.jstr "galactic") then
    "Galaktyki wykazują złożone wzorce periodyczności w rotacji, falach gęstości i cyklach aktywności. Rotacja dyferencyjna i krzywej prędkości rotacji galaktyk tworzą stabilne struktury podobnie jak kryształy czasu tworzą uporządkowane wzorce w czasie."
  else if scale.beq (.jstr "cosmic") then
    "Na skali kosmicznej, można obserwować długoterminowe oscylacje i cykle w ekspansji wszechświata, promieniowaniu tła i rozkładzie wielkoskalowych struktur. Te periodyczności są fundamentalne dla kosmologii, podobnie jak kryształy czasu są fundamentalne dla fizyki kwantowej."
  else ""

/-- `CrystalDetector._generate_explanation` (src/crystal_detection.py,
lines 260-374).  Presentation text only; no theorem constrains its value. -/
def generate_explanation (obj : PyDict) (score : ℕ) : String :=
  let objName := pyStr (jGetD obj "name" (.jstr "Object"))
  let objScaleV := jGetD obj "scale" (.jstr "unknown")
  let objData := pyDataOf obj
  let inQ : Bool := quantumGroup.any (fun s => objScaleV.beq (.jstr s))
  let confidence : String :=
    if 9 ≤ score then "Bardzo wysoki"
    else if 7 ≤ score then "Wysoki"
    else if 4 ≤ score then "Średni"
    else if 2 ≤ score then "Niski"
    else "Bardzo niski"
  let reason : String :=
    if 9 ≤ score then
      (if inQ then "spełnia większość kluczowych kryteriów kryształów czasu"
       else "wykazuje silną okresowość analogiczną do kryształów czasu")
    else if 7 ≤ score then
      (if inQ then "wykazuje znaczące właściwości charakterystyczne dla kryształów czasu"
       else "posiada wyraźne cechy okresowości podobne do kryształów czasu")
    else if 4 ≤ score then
      (if inQ then "posiada pewne cechy kryształów czasu"
       else "wykazuje pewne cechy okresowości przypominające kryształy czasu")
    else if 2 ≤ score then
      (if inQ then "wykazuje minimalne właściwości kryształów czasu"
       else "posiada tylko kilka cech okresowości")
    else "prawdopodobnie nie wykazuje istotnej periodyczności"
  let directPeriod := explPeriodicityFields.filterMap
    (fun f => (jGet objData f).map (fieldLine f))
  let periodProps :=
    if directPeriod.isEmpty then
      objData.filterMap (fun p =>
        if explTerms.any (fun t => strContains (lowerStr p.1) t) then
          some (fieldLine p.1 p.2)
        else none)
    else directPeriod
  let specProps :=
    explQuantumFields.filterMap (fun f => (jGet objData f).map (fieldLine f)) ++
    explAmplitudeFields.filterMap (fun f => (jGet objData f).map (fieldLine f))
  let periodicityText :=
    if periodProps.isEmpty then ""
    else " Cechy okresowości: " ++ String.intercalate ", " periodProps ++ "."
  let propertiesText :=
    if specProps.isEmpty then ""
    else " Dodatkowe istotne właściwości: " ++ String.intercalate ", " specProps ++ "."
  let title := if inQ then "Potencjalny kryształ czasu" else "Analogia kryształu czasu"
  title ++ " - " ++ confidence ++ " poziom pewności: " ++ objName ++ " " ++ reason ++ "." ++
    periodicityText ++ propertiesText ++ " " ++ scaleExplanation objScaleV

/-- A detection result of `find_candidates`. -/
structure Candidate where
  object : PyDict
  score : ℕ
  explanation : String

/-- The unsorted candidate list built by the loop of `find_candidates`,
in input order, keeping only positive scores. -/
def candidate_list (objects : List PyDict) : List Candidate :=
  objects.filterMap (fun obj =>
    let score := evaluate_candidate obj
    if 0 < score then some ⟨obj, score, generate_explanation obj score⟩ else none)

/-- Insertion step of a stable descending sort by score: a new element goes
before the first element whose score it reaches, hence after all
earlier-inserted elements of equal score. -/
def insertDesc (c : Candidate) : List Candidate → List Candidate
  | [] => [c]
  | d :: l => if d.score ≤ c.score then c :: d :: l else d :: insertDesc c l

/-- Stable descending sort by score, modelling
`candidates.sort(key=lambda x: x["score"], reverse=True)` (Python's sort is
stable, and `reverse=True` keeps equal elements in input order). -/
def sortDesc : List Candidate → List Candidate
  | [] => []
  | c :: l => insertDesc c (sortDesc l)

/-- `CrystalDetector.find_candidates` (src/crystal_detection.py, lines
51-77). -/
def find_candidates (objects : List PyDict) : List Candidate :=
  sortDesc (candidate_list objects)

/-! ## DataLoader (src/data_loader.py) and DataExporter (src/data_export.py) -/

/-- `SCALE_NAMES` from utils/constants.py. -/
def SCALE_NAMES : List String :=
  ["cosmic", "galactic", "stellar", "planetary", "human", "cellular", "molecular",
   "atomic", "quantum"]

/-- Python truthiness of a JSON-decoded value. -/
def pyTruthy : JValue → Bool
  | .jnum q => !(q == 0)
  | .jstr s => !s.isEmpty
  | .jbool b => b
  | .jnull => false
  | .jarr l => !l.isEmpty
  | .jobj d => !d.isEmpty

/-- Python `for x in v`: lists yield elements, strings one-character
strings, dicts their keys; other values raise `TypeError` (`none`). -/
def pyIterate : JValue → Option (List JValue)
  | .jarr l => some l
  | .jstr s => some (s.data.map (fun c => JValue.jstr (String.mk [c])))
  | .jobj d => some (d.map (fun p => JValue.jstr p.1))
  | _ => none

/-- The per-record validation of `DataLoader._validate_data`: a dict with
`id`, `scale` and `name` present, `scale` a known scale name, and a `data`
dict. -/
def valid_record (obj : JValue) : Bool :=
  match obj with
  | .jobj d =>
      (jGet d "id").isSome && (jGet d "scale").isSome && (jGet d "name").isSome &&
      (match jGet d "scale" with
       | some (.jstr s) => decide (s ∈ SCALE_NAMES)
       | _ => false) &&
      (match jGet d "data" with
       | some (.jobj _) => true
       | _ => false)
  | _ => false

/-- The tail of `DataLoader._validate_data` once `objects_list` is in hand:
`if not objects_list: return None`, then the record filter, then
`return None` when nothing survived.  `.error ()` models a Python
`TypeError` from iterating a non-iterable truthy value, which the caller's
generic `except` turns into an aborted load. -/
def validateObjectsValue (v : JValue) : Except Unit (Option (List JValue)) :=
  if !(pyTruthy v) then .ok none
  else
    match pyIterate v with
    | none => .error ()
    | some l =>
        let valid := l.filter valid_record
        if valid.isEmpty then .ok none else .ok (some valid)

/-- `DataLoader._validate_data` (src/data_loader.py, lines 57-114): a dict
is read through its `objects` key (default `[]`), a bare list is used
directly, any other top level returns `None`. -/
def validate_data (raw : JValue) : Except Unit (Option (List JValue)) :=
  match raw with
  | .jobj d => validateObjectsValue ((jGet d "objects").getD (.jarr []))
  | .jarr l => validateObjectsValue (.jarr l)
  | _ => .ok none

/-- `obj["id"]` on a loaded record (loader state only ever holds validated
dicts, where the key is present). -/
def idOf (obj : JValue) : Option JValue :=
  match obj with
  | .jobj d => jGet d "id"
  | _ => none

/-- `DataLoader.load_file` (src/data_loader.py, lines 14-55) over the parsed
file contents: `parsed = none` models a `json.JSONDecodeError`; the result
pairs the Python return value with the new `self.objects`.  File I/O and the
error dialogs are outside the model. -/
def load_file (parsed : Option JValue) (append : Bool) (prior : List JValue) :
    Option (List JValue) × List JValue :=
  match parsed with
  | none => (none, prior)
  | some raw =>
    match validate_data raw with
    | .error _ => (none, prior)
    | .ok newObjects =>
      match newObjects with
      | some objs =>
        if !objs.isEmpty then
          if append && !prior.isEmpty then
            let uniqueNew := objs.filter (fun o => !(prior.any (fun p => beqO (idOf p) (idOf o))))
            (some (prior ++ uniqueNew), prior ++ uniqueNew)
          else (some objs, objs)
        else (none, prior)
      | none => (none, prior)

/-- What an export run writes, per format.  Raising before any write is
modelled by the `Except.error` branch of `export_data`, which carries no
output. -/
inductive ExportOutput where
  | csvOut (headers : List String) (rows : List (List String))
  | jsonOut (doc : JValue)
  | txtOut (text : String)

/-- `DataExporter._export_json` (src/data_export.py, lines 80-95): the
document `{"objects": objects}` handed to `json.dump`. -/
def export_json_doc (objects : List JValue) : JValue :=
  .jobj [("objects", .jarr objects)]

/-- A loaded record viewed as a dict (exported objects are loader dicts). -/
def asDict (obj : JValue) : PyDict :=
  match obj with
  | .jobj d => d
  | _ => []

/-- The `data` keys collected by `_export_csv`. -/
def dataKeys (obj : JValue) : List String :=
  match obj with
  | .jobj d =>
      match jGet d "data" with
      | some (.jobj dd) => dd.map Prod.fst
      | _ => []
  | _ => []

/-- Stable insertion into an ascending string list, for Python `sorted`. -/
def insertStr (s : String) : List String → List String
  | [] => [s]
  | t :: l => if s ≤ t then s :: t :: l else t :: insertStr s l

/-- Python `sorted` on strings (code-point lexicographic). -/
def sortStrs : List String → List String
  | [] => []
  | s :: l => insertStr s (sortStrs l)

/-- The sorted union of data field names of `_export_csv` (a Python set,
then `sorted`). -/
def csvFields (objects : List JValue) : List String :=
  sortStrs ((objects.map dataKeys).flatten.eraseDups)

/-- `obj.get("data", {})` of an exported record. -/
def objDataDict (obj : JValue) : PyDict := pyDataOf (asDict obj)

/-- `DataExporter._export_csv` (src/data_export.py, lines 38-78): header
`ID,Scale,Name` plus the sorted field union, one row per object with `""`
for missing fields (cells rendered through `str` by the csv writer). -/
def export_csv (objects : List JValue) : ExportOutput :=
  let fields := csvFields objects
  .csvOut (["ID", "Scale", "Name"] ++ fields)
    (objects.map (fun obj =>
      [pyStr (jGetD (asDict obj) "id" (.jstr "")),
       pyStr (jGetD (asDict obj) "scale" (.jstr "")),
       pyStr (jGetD (asDict obj) "name" (.jstr ""))] ++
      fields.map (fun f => pyStr (jGetD (objDataDict obj) f (.jstr "")))))

/-- A run of one character, for the `"=" * 60` banners. -/
def repeatChar (c : Char) (n : ℕ) : String := String.mk (List.replicate n c)

/-- ASCII upper-casing of one character, for `scale.upper()`. -/
def upperChar (c : Char) : Char :=
  if 'a' ≤ c ∧ c ≤ 'z' then Char.ofNat (c.toNat - 32) else c

/-- `s.upper()` for the ASCII scale names. -/
def upperStr (s : String) : String := String.mk (s.data.map upperChar)

/-- The grouping key `obj.get("scale", "unknown")` of `_export_txt`
(rendered through `str` for the section title; loader records carry string
scales). -/
def scaleKey (obj : JValue) : String :=
  match jGet (asDict obj) "scale" with
  | some v => pyStr v
  | none => "unknown"

/-- Stable insertion by key into an ascending pair list, for
`sorted(obj_data.items())`. -/
def insertPair (p : String × JValue) : List (String × JValue) → List (String × JValue)
  | [] => [p]
  | q :: l => if p.1 ≤ q.1 then p :: q :: l else q :: insertPair p l

/-- `sorted(d.items())` by key (dict keys are unique). -/
def sortPairs : List (String × JValue) → List (String × JValue)
  | [] => []
  | p :: l => insertPair p (sortPairs l)

/-- The per-object block of `_export_txt`. -/
def txtObjectBlock (obj : JValue) : String :=
  "Name: " ++ pyStr (jGetD (asDict obj) "name" (.jstr "Unknown")) ++ "\n" ++
  "ID: " ++ pyStr (jGetD (asDict obj) "id" (.jstr "")) ++ "\n" ++
  (let d := objDataDict obj
   if d.isEmpty then ""
   else "Data:\n" ++
     String.join ((sortPairs d).map (fun p => "  " ++ p.1 ++ ": " ++ pyStr p.2 ++ "\n"))) ++
  "\n"

/-- `DataExporter._export_txt` (src/data_export.py, lines 97-142): a
header, then one section per scale in sorted order (groups form in first
appearance order before sorting, which only the section order depends on). -/
def export_txt (objects : List JValue) : ExportOutput :=
  .txtOut (
    "Data Export - " ++ toString objects.length ++ " Objects\n" ++
    repeatChar '=' 60 ++ "\n\n" ++
    String.join ((sortStrs ((objects.map scaleKey).eraseDups)).map (fun s =>
      upperStr s ++ " SCALE\n" ++ repeatChar '-' 60 ++ "\n\n" ++
      String.join ((objects.filter (fun o => scaleKey o == s)).map txtObjectBlock) ++
      "\n")))

/-- `DataExporter.export_data` (src/data_export.py, lines 14-36):
`raise ValueError` (`.error`) on an empty object list or an unknown format,
before any file is opened; otherwise dispatch on the format.  The
`file_path` argument is dropped with the file I/O. -/
def export_data (objects : List JValue) (format_type : String) :
    Except String ExportOutput :=
  if objects.isEmpty then .error "No objects to export"
  else if format_type == "csv" then .ok (export_csv objects)
  else if format_type == "json" then .ok (.jsonOut (export_json_doc objects))
  else if format_type == "txt" then .ok (export_txt objects)
  else .error ("Unsupported export format: " ++ format_type)

/-! ## Concrete inputs used by counterexamples and witnesses -/

/-- C1 counterexample object: a `quantum`-scale object with an empty `data`
map. -/
def c1_obj : PyDict :=
  [("id", .jstr "q1"), ("scale", .jstr "quantum"), ("name", .jstr "Q"),
   ("data", .jobj [])]

/-- C1 witness object: a `stellar`-scale object with an empty `data` map. -/
def c1w_obj : PyDict :=
  [("id", .jstr "s1"), ("scale", .jstr "stellar"), ("name", .jstr "S"),
   ("data", .jobj [])]

/-- C3 counterexample, first object: scale `quantum`, single field
`mass_x`. -/
def c3_obj1 : PyDict :=
  [("scale", .jstr "quantum"), ("data", .jobj [("mass_x", .jnum 1)])]

/-- C3 counterexample, second object: scale `quantum`, single field
`mass_y`, disjoint from `c3_obj1`. -/
def c3_obj2 : PyDict :=
  [("scale", .jstr "quantum"), ("data", .jobj [("mass_y", .jnum 2)])]

/-- C3 witness, first object: no semantic or stem relation to its peer. -/
def c3w_obj1 : PyDict :=
  [("scale", .jstr "quantum"), ("data", .jobj [("alpha", .jnum 1)])]

/-- C3 witness, second object. -/
def c3w_obj2 : PyDict :=
  [("scale", .jstr "quantum"), ("data", .jobj [("beta", .jnum 2)])]

/-- C4 failing input, first object: a negative `mass`. -/
def c4_obj1 : PyDict :=
  [("scale", .jstr "quantum"), ("data", .jobj [("mass", .jnum (-4))])]

/-- C4 failing input, second object: a positive `mass`, different scale. -/
def c4_obj2 : PyDict :=
  [("scale", .jstr "stellar"), ("data", .jobj [("mass", .jnum 2)])]

/-- C5 witness object: the spec's Earth example. -/
def c5_obj : PyDict :=
  [("id", .jstr "E1"), ("scale", .jstr "planetary"), ("name", .jstr "Earth"),
   ("data", .jobj [("orbital_period", .jnum (1461/4))])]

/-- C7 witness object: the Earth record as a loaded JSON value. -/
def c7_obj : JValue :=
  .jobj [("id", .jstr "E1"), ("scale", .jstr "planetary"), ("name", .jstr "Earth"),
         ("data", .jobj [("orbital_period", .jnum (1461/4))])]

/-! ## Helper lemmas -/

/-- A successful lookup exhibits a binding of the dict. -/
theorem jGet_mem {d : PyDict} {k : String} {v : JValue} (h : jGet d k = some v) :
    (k, v) ∈ d := by
  induction d with
  | nil => simp [jGet, List.lookup] at h
  | cons p t ih =>
    obtain ⟨a, b⟩ := p
    by_cases hk : k = a
    · subst hk
      simp [jGet, List.lookup] at h
      subst h
      exact List.mem_cons_self _ _
    · have hb : (k == a) = false := beq_eq_false_iff_ne.mpr hk
      simp [jGet, List.lookup, hb] at h
      exact List.mem_cons_of_mem _ (ih h)

/-! ## Theorems for C8, C9, C10, C7 -/

/-- C8: for every file whose contents fail JSON parsing, `load_file` returns
`None` (the load is aborted) and the loader's previously held object list is
left exactly as it was before the call. -/
theorem c8_malformed_json_aborts (append : Bool) (prior : List JValue) :
    load_file none append prior = (none, prior) := rfl

/-- C9: for every parsed document yielding zero valid records — an empty (or
missing) `objects` list, a non-empty list all of whose records are invalid,
or a top level that is neither a dict nor a list — `load_file` returns
`None` rather than an empty list, and the held objects keep their prior
contents, in replace mode as well as append mode. -/
theorem c9_zero_valid_records (raw : JValue) (append : Bool) (prior : List JValue)
    (h : (∃ d, raw = .jobj d ∧ (jGet d "objects" = none ∨ jGet d "objects" = some (.jarr []))) ∨
         (∃ l, (raw = .jarr l ∨ ∃ d, raw = .jobj d ∧ jGet d "objects" = some (.jarr l)) ∧
            ∀ o ∈ l, valid_record o = false) ∨
         ((∀ d, raw ≠ .jobj d) ∧ ∀ l, raw ≠ .jarr l)) :
    load_file (some raw) append prior = (none, prior) := by
  have hval : validate_data raw = .ok none := by
    rcases h with ⟨d, rfl, hd⟩ | ⟨l, hl, hinv⟩ | ⟨hnd, hnl⟩
    · rcases hd with hd | hd <;>
        simp [validate_data, hd, validateObjectsValue, pyTruthy]
    · have hv : validateObjectsValue (.jarr l) = .ok none := by
        cases l with
        | nil => simp [validateObjectsValue, pyTruthy]
        | cons x t =>
          have hfilter : (x :: t).filter valid_record = [] :=
            List.filter_eq_nil_iff.mpr (by
              intro a ha
              simp [hinv a ha])
          simp [validateObjectsValue, pyTruthy, pyIterate, hfilter]
      rcases hl with rfl | ⟨d, rfl, hd⟩
      · simp [validate_data, hv]
      · simp [validate_data, hd, hv]
    · cases raw with
      | jobj d => exact absurd rfl (hnd d)
      | jarr l => exact absurd rfl (hnl l)
      | jnum q => rfl
      | jstr s => rfl
      | jbool b => rfl
      | jnull => rfl
  simp [load_file, hval]

/-- C9 witness: a dict without an `objects` key, loaded in replace mode over
a non-empty prior state. -/
theorem c9_witness :
    load_file (some (.jobj [])) false [JValue.jnull] = (none, [JValue.jnull]) :=
  c9_zero_valid_records (.jobj []) false [JValue.jnull]
    (Or.inl ⟨[], rfl, Or.inl rfl⟩)

/-- C10: `export_data` raises `ValueError` whenever the objects list is
empty or the format is not one of csv/json/txt; in those cases the result is
the error alone, with no output produced. -/
theorem c10_export_guard (objects : List JValue) (format_type : String) :
    (objects = [] → export_data objects format_type = .error "No objects to export") ∧
    (objects ≠ [] → format_type ∉ (["csv", "json", "txt"] : List String) →
      export_data objects format_type = .error ("Unsupported export format: " ++ format_type)) := by
  constructor
  · intro h; subst h; rfl
  · intro hne hfmt
    have h0 : objects.isEmpty = false := by
      cases objects with
      | nil => exact absurd rfl hne
      | cons x t => rfl
    have h1 : format_type ≠ "csv" := fun e => hfmt (by simp [e])
    have h2 : format_type ≠ "json" := fun e => hfmt (by simp [e])
    have h3 : format_type ≠ "txt" := fun e => hfmt (by simp [e])
    simp [export_data, h0, h1, h2, h3]

/-- C10 witness: the empty-list case and an unknown format. -/
theorem c10_witness :
    export_data [] "csv" = .error "No objects to export" ∧
    export_data [JValue.jnull] "xml" = .error ("Unsupported export format: " ++ "xml") :=
  ⟨(c10_export_guard [] "csv").1 rfl,
   (c10_export_guard [JValue.jnull] "xml").2 (by simp) (by decide)⟩

/-- C7: exporting a list of records that pass load-time validation as the
JSON document `{"objects": [...]}` and pushing that document back through
`_validate_data` reproduces exactly the same records (hence equality on
`id`, `scale`, `name` and `data` field by field). -/
theorem c7_json_round_trip (objects : List JValue)
    (hne : objects ≠ []) (hv : ∀ o ∈ objects, valid_record o = true) :
    validate_data (export_json_doc objects) = .ok (some objects) := by
  have hlook : jGet [("objects", JValue.jarr objects)] "objects" = some (.jarr objects) := rfl
  have htruthy : pyTruthy (.jarr objects) = true := by
    cases objects with
    | nil => exact absurd rfl hne
    | cons x t => rfl
  have hfilter : objects.filter valid_record = objects := List.filter_eq_self.mpr hv
  have hempty : objects.isEmpty = false := by
    cases objects with
    | nil => exact absurd rfl hne
    | cons x t => rfl
  simp [validate_data, export_json_doc, hlook, validateObjectsValue, htruthy, pyIterate,
    hfilter, hempty]

/-- C7 witness: the Earth record of the spec example. -/
theorem c7_witness :
    validate_data (export_json_doc [c7_obj]) = .ok (some [c7_obj]) :=
  c7_json_round_trip [c7_obj] (by simp) (by decide)

/-! ## Theorems for C1, C5, C6 -/

/-- With an empty data dict one criteria-loop iteration leaves the state
unchanged: nothing matches directly, by category, or by the hidden
periodicity fallback. -/
theorem processCriterion_nil (sc : Option String) (st : EvalState) (c : Criterion) :
    processCriterion [] sc st c = st := by
  have hcat : categoryMatch c.field [] = none := by
    simp [categoryMatch, field_categories, List.find?]
  simp [processCriterion, jGet, List.lookup, hcat, fieldTruthy, valueIsNone, List.find?]

/-- The criteria fold over an empty data dict is the identity. -/
theorem foldl_processCriterion_nil (sc : Option String) (st : EvalState)
    (cs : List Criterion) :
    cs.foldl (processCriterion [] sc) st = st := by
  induction cs generalizing st with
  | nil => rfl
  | cons c t ih => rw [List.foldl_cons, processCriterion_nil, ih]

/-- C1 (amended): an object whose `data` map is present but empty scores 1
when its scale is one of the nine recognized scales and 0 otherwise, and
`find_candidates` keeps it exactly when that score is positive, i.e. exactly
when the scale is recognized. -/
theorem c1_empty_data_score (obj : PyDict) (h : jGet obj "data" = some (.jobj [])) :
    evaluate_candidate obj =
      (if (objScaleOf obj).getD "" ∈ preferred_scales then 1 else 0) ∧
    (find_candidates [obj]).map Candidate.object =
      (if (objScaleOf obj).getD "" ∈ preferred_scales then [obj] else []) := by
  have hne : obj.isEmpty = false := by
    cases obj with
    | nil => simp [jGet, List.lookup] at h
    | cons p l => rfl
  have hdata : pyDataOf obj = [] := by simp [pyDataOf, h]
  have heval : evaluate_candidate obj =
      (if (objScaleOf obj).getD "" ∈ preferred_scales then 1 else 0) := by
    rw [evaluate_candidate]
    rw [hne, h]
    simp only [Option.isNone_some, Bool.or_false, Bool.false_eq_true, if_false]
    rw [hdata, foldl_processCriterion_nil]
    by_cases hs : (objScaleOf obj).getD "" ∈ preferred_scales <;> simp [hs]
  refine ⟨heval, ?_⟩
  by_cases hs : (objScaleOf obj).getD "" ∈ preferred_scales
  · rw [if_pos hs] at heval
    simp [find_candidates, candidate_list, heval, sortDesc, insertDesc, hs]
  · rw [if_neg hs] at heval
    simp [find_candidates, candidate_list, heval, sortDesc, hs]

/-- C1 witness: an empty-data object with the recognized scale `stellar`
is scored 1 and kept. -/
theorem c1_witness :
    (evaluate_candidate c1w_obj =
      if (objScaleOf c1w_obj).getD "" ∈ preferred_scales then 1 else 0) ∧
    ((find_candidates [c1w_obj]).map Candidate.object =
      if (objScaleOf c1w_obj).getD "" ∈ preferred_scales then [c1w_obj] else []) :=
  c1_empty_data_score c1w_obj rfl

/-- C1 counterexample: `c1_obj` has a present but empty `data` map, yet
`_evaluate_candidate` scores it 1, not 0, and `find_candidates` keeps it. -/
theorem c1_counterexample :
    jGet c1_obj "data" = some (.jobj []) ∧
    evaluate_candidate c1_obj = 1 ∧
    (find_candidates [c1_obj]).length = 1 := by
  refine ⟨rfl, by decide, by decide⟩

/-- Membership in an insertion step. -/
theorem mem_insertDesc {a c : Candidate} {l : List Candidate} :
    a ∈ insertDesc c l ↔ a = c ∨ a ∈ l := by
  induction l with
  | nil => simp [insertDesc]
  | cons d t ih =>
    by_cases hle : d.score ≤ c.score
    · simp [insertDesc, hle]
    · simp [insertDesc, hle, ih]
      tauto

/-- The stable sort does not change membership. -/
theorem mem_sortDesc {a : Candidate} {l : List Candidate} :
    a ∈ sortDesc l ↔ a ∈ l := by
  induction l with
  | nil => simp [sortDesc]
  | cons c t ih => simp [sortDesc, mem_insertDesc, ih]

/-- C5: `_evaluate_candidate` always returns a score in [0,10] (the score
is a natural number, clamped at 10), and every candidate emitted by
`find_candidates` carries a score in (0,10]. -/
theorem c5_score_bounds :
    (∀ obj : PyDict, evaluate_candidate obj ≤ 10) ∧
    (∀ (objects : List PyDict) (c : Candidate), c ∈ find_candidates objects →
      0 < c.score ∧ c.score ≤ 10) := by
  have h1 : ∀ obj : PyDict, evaluate_candidate obj ≤ 10 := by
    intro obj
    rw [evaluate_candidate]
    split
    · exact Nat.zero_le 10
    · exact Nat.min_le_left _ _
  refine ⟨h1, ?_⟩
  intro objects c hc
  rw [find_candidates, mem_sortDesc] at hc
  rw [candidate_list, List.mem_filterMap] at hc
  obtain ⟨obj, _, hsome⟩ := hc
  by_cases hpos : 0 < evaluate_candidate obj
  · rw [if_pos hpos] at hsome
    cases hsome
    exact ⟨hpos, h1 obj⟩
  · rw [if_neg hpos] at hsome
    cases hsome

/-- C5 witness: the Earth example yields a first candidate with score in
(0,10]. -/
theorem c5_witness :
    0 < ((find_candidates [c5_obj]).get ⟨0, by decide⟩).score ∧
    ((find_candidates [c5_obj]).get ⟨0, by decide⟩).score ≤ 10 :=
  c5_score_bounds.2 [c5_obj] ((find_candidates [c5_obj]).get ⟨0, by decide⟩)
    (List.get_mem _ _ _)

/-- An insertion step keeps the list sorted by weakly descending score. -/
theorem insertDesc_pairwise {c : Candidate} {l : List Candidate}
    (h : l.Pairwise (fun a b => b.score ≤ a.score)) :
    (insertDesc c l).Pairwise (fun a b => b.score ≤ a.score) := by
  induction l with
  | nil => simp [insertDesc]
  | cons d t ih =>
    rw [List.pairwise_cons] at h
    obtain ⟨hd, ht⟩ := h
    by_cases hle : d.score ≤ c.score
    · rw [insertDesc, if_pos hle]
      refine List.Pairwise.cons ?_ (List.Pairwise.cons hd ht)
      intro x hx
      rcases List.mem_cons.mp hx with rfl | hx
      · exact hle
      · exact le_trans (hd x hx) hle
    · rw [insertDesc, if_neg hle]
      refine List.Pairwise.cons ?_ (ih ht)
      intro x hx
      rcases mem_insertDesc.mp hx with rfl | hx
      · omega
      · exact hd x hx

/-- The output of the stable sort is sorted by weakly descending score. -/
theorem sortDesc_pairwise (l : List Candidate) :
    (sortDesc l).Pairwise (fun a b => b.score ≤ a.score) := by
  induction l with
  | nil => simp [sortDesc]
  | cons c t ih => exact insertDesc_pairwise ih

/-- Filtering an insertion step by an exact score: the new element lands in
front of the equal-score block, since insertion only passes over strictly
greater scores. -/
theorem filter_insertDesc (c : Candidate) (l : List Candidate) (s : ℕ) :
    (insertDesc c l).filter (fun d => d.score == s) =
      if c.score = s then c :: l.filter (fun d => d.score == s)
      else l.filter (fun d => d.score == s) := by
  induction l with
  | nil =>
    by_cases hcs : c.score = s <;> simp [insertDesc, List.filter_cons, hcs]
  | cons d t ih =>
    rw [insertDesc]
    by_cases hle : d.score ≤ c.score
    · rw [if_pos hle]
      by_cases hcs : c.score = s <;>
        simp [List.filter_cons, hcs]
    · rw [if_neg hle, List.filter_cons, ih]
      by_cases hcs : c.score = s
      · have hds : (d.score == s) = false := beq_eq_false_iff_ne.mpr (by omega)
        rw [if_pos hcs, hds]
        rw [List.filter_cons, hds]
        simp [hcs]
      · by_cases hds : d.score = s <;>
          simp [List.filter_cons, hcs, hds]

/-- Filtering the stable sort by an exact score preserves the pre-sort
(input-order) sequence of equal-score candidates. -/
theorem filter_sortDesc (l : List Candidate) (s : ℕ) :
    (sortDesc l).filter (fun d => d.score == s) = l.filter (fun d => d.score == s) := by
  induction l with
  | nil => rfl
  | cons c t ih =>
    rw [sortDesc, filter_insertDesc, ih, List.filter_cons]
    by_cases hcs : c.score = s
    · rw [if_pos hcs, if_pos (by simp [hcs])]
    · rw [if_neg hcs, if_neg (by simp [hcs])]

/-- C6: `find_candidates` is deterministic (it is a function of its input),
its output is sorted by weakly descending score, and the sort is stable:
for every score, the candidates carrying that score appear in the same
order as in the unsorted input-order candidate list. -/
theorem c6_deterministic_stable_sort (objects : List PyDict) :
    find_candidates objects = find_candidates objects ∧
    (find_candidates objects).Pairwise (fun a b => b.score ≤ a.score) ∧
    ∀ s : ℕ, (find_candidates objects).filter (fun c => c.score == s) =
      (candidate_list objects).filter (fun c => c.score == s) :=
  ⟨rfl, sortDesc_pairwise _, fun s => filter_sortDesc _ s⟩

/-! ## Theorems for C3 and C4 -/

/-- With disjoint field names the exact-match pass finds nothing. -/
theorem exactMatches_nil {property_fields : List String} {data1 data2 : PyDict}
    (hdisj : ∀ p ∈ data1, ∀ q ∈ data2, Prod.fst p ≠ Prod.fst q) :
    exactMatches property_fields data1 data2 = [] := by
  rw [exactMatches, List.map_eq_nil_iff, List.filter_eq_nil_iff]
  intro f hf hcontra
  rw [Bool.and_eq_true, Option.isSome_iff_exists, Option.isSome_iff_exists] at hcontra
  obtain ⟨⟨v1, h1⟩, ⟨v2, h2⟩⟩ := hcontra
  exact hdisj (f, v1) (jGet_mem h1) (f, v2) (jGet_mem h2) rfl

/-- Without a shared semantic term the semantic pass finds nothing. -/
theorem semanticMatches_nil {data1 data2 : PyDict}
    (hsem : ∀ p ∈ data1, ∀ q ∈ data2, ∀ t ∈ semanticTerms,
      ¬(strContains (lowerStr (Prod.fst p)) t = true ∧
        strContains (lowerStr (Prod.fst q)) t = true)) :
    semanticMatches data1 data2 = [] := by
  rw [semanticMatches, List.filterMap_eq_nil_iff]
  intro p hp
  rw [semanticPairFor, Option.map_eq_none', List.find?_eq_none]
  intro q hq
  simp only [List.any_eq_true, Bool.and_eq_true, not_exists, not_and]
  intro t ht hc1 hc2
  exact hsem p hp q hq t ht ⟨hc1, hc2⟩

/-- Without shared five-character stems or equal names the stem pass finds
nothing. -/
theorem stemMatches_nil {data1 data2 : PyDict}
    (hdisj : ∀ p ∈ data1, ∀ q ∈ data2, Prod.fst p ≠ Prod.fst q)
    (hstem : ∀ p ∈ data1, ∀ q ∈ data2,
      ¬((Prod.fst p).data.take 5 = (Prod.fst q).data.take 5 ∧
        4 < (Prod.fst p).data.length)) :
    stemMatches data1 data2 = [] := by
  rw [stemMatches, List.filterMap_eq_nil_iff]
  intro p hp
  rw [stemPairFor, Option.map_eq_none', List.find?_eq_none]
  intro q hq
  simp only [Bool.or_eq_true, Bool.and_eq_true, beq_iff_eq, decide_eq_true_eq, not_or,
    not_and]
  exact ⟨fun h1 h2 => hstem p hp q hq ⟨h1, h2⟩, fun e => hdisj p hp q hq e⟩

/-- C3 (amended): for a pair of objects that share the same scale (in the
Python `==` sense), have no overlapping `data` field name, no pair of field
names sharing a semantic term, and no pair of field names agreeing on their
first five characters (with the first longer than four), the heatmap
similarity is exactly 0.3; for such a pair with different scales it is
exactly 0.1. -/
theorem c3_floor_similarity (obj1 obj2 : PyDict) (property_fields : List String)
    (hdisj : ∀ p ∈ pyDataOf obj1, ∀ q ∈ pyDataOf obj2, Prod.fst p ≠ Prod.fst q)
    (hsem : ∀ p ∈ pyDataOf obj1, ∀ q ∈ pyDataOf obj2, ∀ t ∈ semanticTerms,
      ¬(strContains (lowerStr (Prod.fst p)) t = true ∧
        strContains (lowerStr (Prod.fst q)) t = true))
    (hstem : ∀ p ∈ pyDataOf obj1, ∀ q ∈ pyDataOf obj2,
      ¬((Prod.fst p).data.take 5 = (Prod.fst q).data.take 5 ∧
        4 < (Prod.fst p).data.length)) :
    heatmap_calculate_property_similarity obj1 obj2 property_fields =
      (if sameScale obj1 obj2 then 3/10 else 1/10) := by
  have hm : find_matching_props (pyDataOf obj1) (pyDataOf obj2) property_fields = [] := by
    rw [find_matching_props]
    simp [exactMatches_nil hdisj, semanticMatches_nil hsem, stemMatches_nil hdisj hstem]
  rw [heatmap_calculate_property_similarity]
  simp [hm]

/-- C3 witness: two `quantum` objects whose single fields `alpha` and
`beta` are unrelated receive exactly the 0.3 same-scale floor. -/
theorem c3_witness :
    heatmap_calculate_property_similarity c3w_obj1 c3w_obj2 ["mass"] = 3/10 := by
  have hs : sameScale c3w_obj1 c3w_obj2 = true := by
    simp [sameScale, jGet, List.lookup, c3w_obj1, c3w_obj2, beqO, JValue.beq]
  have h := c3_floor_similarity c3w_obj1 c3w_obj2 ["mass"] (by decide) (by decide) (by decide)
  rw [h, if_pos hs]

/-- C3 counterexample: two same-scale objects with disjoint field names
`mass_x` and `mass_y` are paired by the semantic fallback and score 0.45,
not the 0.3 floor the claim asserts. -/
theorem c3_counterexample :
    sameScale c3_obj1 c3_obj2 = true ∧
    (∀ p ∈ pyDataOf c3_obj1, ∀ q ∈ pyDataOf c3_obj2, Prod.fst p ≠ Prod.fst q) ∧
    heatmap_calculate_property_similarity c3_obj1 c3_obj2 [] = 9/20 ∧
    (9 : ℚ)/20 ≠ 3/10 := by
  refine ⟨?_, by decide, ?_, by norm_num⟩
  · simp [sameScale, jGet, List.lookup, c3_obj1, c3_obj2, beqO, JValue.beq]
  · simp [heatmap_calculate_property_similarity, c3_obj1, c3_obj2, pyDataOf, jGet,
      List.lookup, find_matching_props, exactMatches, semanticMatches, semanticPairFor,
      semanticTerms, lowerStr, lowerChar, strContains, subList, List.find?, similarity_sum,
      matchContribution, extractO, extract_numeric_value, sameScale, beqO, JValue.beq]
    norm_num

/-- C4: at the failing input (a negative and a positive `mass`, different
scales) both views return -1: `min(1.0, similarity)` clamps only from
above, so the `min/max` ratio of mixed-sign values drives the result below
the [0,1] range that the claim (and the code's own `clamp to [0,1]`
comment) promises. -/
theorem c4_negative_similarity :
    heatmap_calculate_property_similarity c4_obj1 c4_obj2 ["mass"] = -1 ∧
    netgraph_calculate_property_similarity c4_obj1 c4_obj2 ["mass"] = -1 ∧
    ¬(0 ≤ (-1 : ℚ)) := by
  refine ⟨?_, ?_, by norm_num⟩
  · simp [heatmap_calculate_property_similarity, c4_obj1, c4_obj2, pyDataOf, jGet,
      List.lookup, find_matching_props, exactMatches, semanticMatches, semanticPairFor,
      semanticTerms, lowerStr, lowerChar, strContains, subList, List.find?, similarity_sum,
      matchContribution, extractO, extract_numeric_value, sameScale, beqO, JValue.beq]
    norm_num
  · simp [netgraph_calculate_property_similarity, c4_obj1, c4_obj2, pyDataOf, jGet,
      List.lookup, find_matching_props, exactMatches, semanticMatches, semanticPairFor,
      semanticTerms, lowerStr, lowerChar, strContains, subList, List.find?, similarity_sum,
      matchContribution, extractO, extract_numeric_value, sameScale, beqO, JValue.beq]
    norm_num
